import Mathlib

/-!
Shallow embedding of the recommendation engine in `src/app.py`
(`get_recommendation`, lines 56-88, and the prompt construction of
`get_deal_insights`, lines 91-109).

Tables are pandas dataframes in the source; here a dataframe is a list of
rows in table order.  A cell of the `Minimum Order Quantity` column may hold
an integer, a float (modelled as a rational, since the concrete values in
play are exactly representable) or an arbitrary string; Python's `int(...)`
coercion on it is modelled by `intCoerce`, which fails (`none`) exactly when
Python raises.

The industry dict `industry_dfs` is an association list keyed by the
industry label, looked up with `List.lookup`, mirroring Python dict
membership test plus subscript.
-/

/-- A value held in a table cell: integer, float (exact rational), or text. -/
inductive Value where
  | intV (n : Int)
  | floatV (q : Rat)
  | strV (s : String)
  deriving DecidableEq, Repr

/-- Truncation toward zero of a rational, as Python's `int(...)` applied to a
float: `int(50.5) = 50`, `int(-50.5) = -50`. -/
def ratTrunc (q : Rat) : Int :=
  q.num.tdiv q.den

/-- Decimal digits of a string accumulated left to right; `none` on a
non-digit character. -/
def parseDigitsAux : List Char → Nat → Option Nat
  | [], acc => some acc
  | c :: cs, acc =>
    if c.isDigit then parseDigitsAux cs (acc * 10 + (c.toNat - 48))
    else none

/-- Leading and trailing whitespace stripped from a character list, as
Python's `int` does before parsing. -/
def trimChars (cs : List Char) : List Char :=
  ((cs.dropWhile Char.isWhitespace).reverse.dropWhile Char.isWhitespace).reverse

/-- Python `int(string)`: optional sign then one or more decimal digits,
surrounding whitespace ignored; anything else raises `ValueError`
(here: `none`). -/
def pyIntOfString (s : String) : Option Int :=
  match trimChars s.data with
  | [] => none
  | '-' :: cs =>
    if cs.isEmpty then none else (parseDigitsAux cs 0).map (fun n => -(n : Int))
  | '+' :: cs =>
    if cs.isEmpty then none else (parseDigitsAux cs 0).map (fun n => (n : Int))
  | cs => (parseDigitsAux cs 0).map (fun n => (n : Int))

/-- Python `int(moq)` as performed at src/app.py line 86: an integer passes
through, a float truncates toward zero, a string parses as a decimal integer
and anything non-numeric raises (here: `none`). -/
def intCoerce : Value → Option Int
  | .intV n => some n
  | .floatV q => some (ratTrunc q)
  | .strV s => pyIntOfString s

/-- A row of `Base.csv`: columns `Base Name`, `Base Code`,
`Minimum Order Quantity`, `Payment Terms`. -/
structure BaseRow where
  baseName : String
  baseCode : String
  moq : Value
  terms : String
  deriving DecidableEq, Repr

/-- A row of an industry table: first column the identifying product name,
second the code, plus `Minimum Order Quantity` and `Payment Terms`. -/
structure IndustryRow where
  name : String
  code : String
  moq : Value
  terms : String
  deriving DecidableEq, Repr

/-- The catalogue the resolver reads: the base table and the industry
tables keyed by label (`industry_dfs`). -/
structure Catalog where
  base : List BaseRow
  industries : List (String × List IndustryRow)
  deriving DecidableEq, Repr

/-- The record returned on success (the dict built at src/app.py
lines 81-88). -/
structure Recommendation where
  product : String
  industry : String
  recoProduct : String
  recoCode : String
  moq : Int
  terms : String
  deriving DecidableEq, Repr

/-- Outcome of `get_recommendation`: `None` for an unknown base product,
a raised coercion error from `int(moq)`, or the composed record. -/
inductive RecoResult where
  | notFound
  | typeError
  | ok (r : Recommendation)
  deriving DecidableEq, Repr

/-- The filter `base_df[base_df["Base Name"] == product_name]`
(src/app.py line 58): every base row whose name equals the query, in table
order. -/
def baseLookup (cat : Catalog) (product_name : String) : List BaseRow :=
  cat.base.filter (fun r => r.baseName == product_name)

/-- The four mutable locals `reco_product, reco_code, moq, terms` of
`get_recommendation`. -/
structure Fields where
  recoProduct : String
  recoCode : String
  moq : Value
  terms : String
  deriving DecidableEq, Repr

/-- Their initial seeding from the first matching base row
(src/app.py lines 62-69). -/
def seedFields (product_name : String) (b : BaseRow) : Fields :=
  ⟨product_name, b.baseCode, b.moq, b.terms⟩

/-- The industry override step (src/app.py lines 72-79): when the label is
a key of `industry_dfs`, filter that table by
`df[df.columns[0]].str.startswith(product_name)` and, if nonempty, replace
all four fields with the first matching row's values. -/
def industryOverride (cat : Catalog) (product_name industry : String)
    (init : Fields) : Fields :=
  match cat.industries.lookup industry with
  | none => init
  | some df =>
    match df.filter (fun r => List.isPrefixOf product_name.data r.name.data) with
    | [] => init
    | r :: _ => ⟨r.name, r.code, r.moq, r.terms⟩

/-- Function `get_recommendation` of src/app.py, lines 56-88. -/
def get_recommendation (cat : Catalog) (product_name industry : String) :
    RecoResult :=
  match baseLookup cat product_name with
  | [] => .notFound
  | b :: _ =>
    let f := industryOverride cat product_name industry
      (seedFields product_name b)
    match intCoerce f.moq with
    | none => .typeError
    | some m => .ok ⟨product_name, industry, f.recoProduct, f.recoCode, m,
        f.terms⟩

/-- State-passing form of the resolver: the source never assigns to
`base_df` or to any entry of `industry_dfs` (pandas boolean-mask filtering
and `.values` reads allocate fresh objects), so the catalogue threads
through unchanged. -/
def get_recommendation_st (cat : Catalog) (product_name industry : String) :
    RecoResult × Catalog :=
  (get_recommendation cat product_name industry, cat)

/-- The derived recommended-product token interpolated into the prompt at
src/app.py line 95: the product, a hyphen, and the industry's first
character uppercased (`industry[0].upper()`; case mapping modelled by
`Char.toUpper`). -/
def derivedToken (product : String) (c : Char) : String :=
  product ++ "-" ++ String.mk [c.toUpper]

/-- Literal f-string text before the product interpolation. -/
def promptSeg1 : String := "\n    Product: "

/-- Literal text between the product and industry interpolations. -/
def promptSeg2 : String := "\n    Industry: "

/-- Literal text before the derived recommended-product token. -/
def promptSeg3 : String := "\n    Recommended Product: "

/-- Literal text before the MOQ interpolation. -/
def promptSeg4 : String := "\n    Minimum Order Quantity: "

/-- Literal text before the payment-terms interpolation. -/
def promptSeg5 : String := "\n    Payment Terms: "

/-- Literal f-string text after the last interpolation: the three questions
and the requested `Deal Probability:` / `Profitability:` / `Next Step:`
response format. -/
def promptTail : String :=
  "\n\n    Based on this context, answer the following:\n\n    1. What is the probability (0-100%) of closing this deal?\n    2. What is the profitability rating? (Low / Medium / High)\n    3. What should be the next best step for the sales rep to close this deal?\n\n    Format the response as:\n    Deal Probability: <percent>\n    Profitability: <rating>\n    Next Step: <action>\n    "

/-- The prompt built by `get_deal_insights` (src/app.py lines 92-109).
Subscripting `industry[0]` raises `IndexError` on an empty industry string,
modelled by `none`; otherwise the f-string text with the five values
interpolated. -/
def get_deal_insights_prompt (product industry : String) (moq : Int)
    (payment_terms : String) : Option String :=
  match industry.data with
  | [] => none
  | c :: _ => some
      (promptSeg1 ++ product ++ promptSeg2 ++ industry ++
       promptSeg3 ++ derivedToken product c ++
       promptSeg4 ++ toString moq ++
       promptSeg5 ++ payment_terms ++ promptTail)

/-- Substring containment: `sub` occurs contiguously inside `s`. -/
def containsStr (s sub : String) : Prop :=
  ∃ a b : List Char, s.data = a ++ sub.data ++ b

/-- The base table row and Apparel industry row used in the spec's worked
example (`resolve("Widget", "Apparel")`). -/
def widgetBase : BaseRow := ⟨"Widget", "W1", .intV 10, "Net 15"⟩

/-- The Apparel row of the worked example. -/
def apparelRow : IndustryRow := ⟨"Widget-A", "WA1", .intV 50, "Net 30"⟩

/-- One-product catalogue realising the spec's worked example. -/
def demoCatalog : Catalog := ⟨[widgetBase], [("Apparel", [apparelRow])]⟩

/-- Catalogue with a duplicated base name, for the first-match-wins claim. -/
def dupCatalog : Catalog :=
  ⟨[⟨"Widget", "W1", .intV 10, "Net 15"⟩, ⟨"Widget", "W2", .intV 99, "Net 60"⟩],
   [("Apparel", [apparelRow])]⟩

/-- Catalogue whose base MOQ cell is the non-numeric string `"abc"`. -/
def badMoqCatalog : Catalog :=
  ⟨[⟨"Widget", "W1", .strV "abc", "Net 15"⟩], []⟩

/-- Catalogue whose base MOQ cell is the float `50.5`. -/
def floatMoqCatalog : Catalog :=
  ⟨[⟨"Widget", "W1", .floatV (mkRat 101 2), "Net 15"⟩], []⟩

/-- Claim C1: with the queried product present in the base table and the industry
label naming a known table containing a prefix-matching row, the resolver
returns the first matching row's name, code, MOQ and terms. -/
theorem industry_match_overrides (cat : Catalog) (product_name industry : String)
    (b : BaseRow) (bs : List BaseRow) (df : List IndustryRow)
    (r : IndustryRow) (rs : List IndustryRow) (m : Int)
    (hbase : baseLookup cat product_name = b :: bs)
    (hdf : cat.industries.lookup industry = some df)
    (hmatch : df.filter (fun x => List.isPrefixOf product_name.data x.name.data)
      = r :: rs)
    (hmoq : intCoerce r.moq = some m) :
    get_recommendation cat product_name industry =
      .ok ⟨product_name, industry, r.name, r.code, m, r.terms⟩ := by
  unfold get_recommendation industryOverride
  simp only [hbase, hdf, hmatch, hmoq]

theorem industry_match_overrides_witness :
    get_recommendation demoCatalog "Widget" "Apparel" =
      .ok ⟨"Widget", "Apparel", "Widget-A", "WA1", 50, "Net 30"⟩ :=
  industry_match_overrides demoCatalog "Widget" "Apparel" widgetBase []
    [apparelRow] apparelRow [] 50 (by decide) (by decide) (by decide) (by decide)

/-- Claim C2: with the queried product present in the base table and no industry
override available (label unknown, or known but no row's name extends the
product), the resolver returns the base row's code, MOQ and terms unchanged,
as a normal result rather than an error. -/
theorem fallback_keeps_base_values (cat : Catalog) (product_name industry : String)
    (b : BaseRow) (bs : List BaseRow) (m : Int)
    (hbase : baseLookup cat product_name = b :: bs)
    (hnomatch : ∀ df, cat.industries.lookup industry = some df →
      df.filter (fun x => List.isPrefixOf product_name.data x.name.data) = [])
    (hmoq : b.moq = .intV m) :
    get_recommendation cat product_name industry =
      .ok ⟨product_name, industry, product_name, b.baseCode, m, b.terms⟩ := by
  unfold get_recommendation industryOverride
  simp only [hbase]
  cases hdf : cat.industries.lookup industry with
  | none => simp only [seedFields, hmoq, intCoerce]
  | some df => simp only [hnomatch df hdf, seedFields, hmoq, intCoerce]

theorem fallback_keeps_base_values_witness :
    get_recommendation demoCatalog "Widget" "Nonexistent" =
      .ok ⟨"Widget", "Nonexistent", "Widget", "W1", 10, "Net 15"⟩ :=
  fallback_keeps_base_values demoCatalog "Widget" "Nonexistent" widgetBase [] 10
    (by decide)
    (fun df h => by
      have hn : List.lookup "Nonexistent" demoCatalog.industries = none := by decide
      rw [hn] at h
      cases h)
    (by decide)

/-- Claim C3: a product absent from the base table (no row's name equals it) makes
the resolver return the not-found outcome for every industry label. -/
theorem unknown_product_not_found (cat : Catalog) (product_name industry : String)
    (h : ∀ r ∈ cat.base, r.baseName ≠ product_name) :
    get_recommendation cat product_name industry = .notFound := by
  have hfil : baseLookup cat product_name = [] := by
    unfold baseLookup
    rw [List.filter_eq_nil_iff]
    intro r hr
    simpa using h r hr
  unfold get_recommendation
  simp only [hfil]

theorem unknown_product_not_found_witness :
    get_recommendation demoCatalog "unknown-product" "Apparel" = .notFound :=
  unknown_product_not_found demoCatalog "unknown-product" "Apparel" (by decide)

/-- Claim C4: when the selected MOQ cell (after seeding and any industry override)
is non-numeric, the resolver raises the coercion error instead of returning
a record. -/
theorem bad_moq_raises (cat : Catalog) (product_name industry : String)
    (b : BaseRow) (bs : List BaseRow)
    (hbase : baseLookup cat product_name = b :: bs)
    (hmoq : intCoerce
      (industryOverride cat product_name industry (seedFields product_name b)).moq
      = none) :
    get_recommendation cat product_name industry = .typeError := by
  unfold get_recommendation
  simp only [hbase, hmoq]

theorem bad_moq_raises_witness :
    get_recommendation badMoqCatalog "Widget" "Energy" = .typeError :=
  bad_moq_raises badMoqCatalog "Widget" "Energy"
    ⟨"Widget", "W1", .strV "abc", "Net 15"⟩ [] (by decide) (by decide)

/-- Claim C5: with the base-name uniqueness invariant violated, the resolver seeds
from the first matching base row: the result is the same as if the base
table held only that first row. -/
theorem duplicate_base_first_wins (cat : Catalog) (product_name industry : String)
    (b1 b2 : BaseRow) (bs : List BaseRow)
    (hbase : baseLookup cat product_name = b1 :: b2 :: bs) :
    get_recommendation cat product_name industry =
      get_recommendation ⟨[b1], cat.industries⟩ product_name industry := by
  have hmem : b1 ∈ baseLookup cat product_name := by
    rw [hbase]; exact List.mem_cons_self _ _
  have hpred : (b1.baseName == product_name) = true :=
    (List.mem_filter.mp hmem).2
  have hone : baseLookup ⟨[b1], cat.industries⟩ product_name = [b1] := by
    unfold baseLookup
    simp [List.filter, hpred]
  unfold get_recommendation
  simp only [hbase, hone]
  rfl

theorem duplicate_base_first_wins_witness :
    baseLookup dupCatalog "Widget" =
      [⟨"Widget", "W1", .intV 10, "Net 15"⟩, ⟨"Widget", "W2", .intV 99, "Net 60"⟩] ∧
    get_recommendation dupCatalog "Widget" "Nonexistent" =
      get_recommendation ⟨[⟨"Widget", "W1", .intV 10, "Net 15"⟩], dupCatalog.industries⟩
        "Widget" "Nonexistent" ∧
    get_recommendation dupCatalog "Widget" "Nonexistent" =
      .ok ⟨"Widget", "Nonexistent", "Widget", "W1", 10, "Net 15"⟩ :=
  ⟨by decide,
   duplicate_base_first_wins dupCatalog "Widget" "Nonexistent"
     ⟨"Widget", "W1", .intV 10, "Net 15"⟩ ⟨"Widget", "W2", .intV 99, "Net 60"⟩ []
     (by decide),
   by decide⟩

/-- Claim C7: the resolver is deterministic: two calls on the same catalogue with
the same product and industry yield the same outcome. -/
theorem resolver_deterministic (cat : Catalog) (product_name industry : String)
    (r1 r2 : RecoResult)
    (h1 : r1 = get_recommendation cat product_name industry)
    (h2 : r2 = get_recommendation cat product_name industry) : r1 = r2 :=
  h1.trans h2.symm

theorem resolver_deterministic_witness :
    get_recommendation demoCatalog "Widget" "Apparel" =
      get_recommendation demoCatalog "Widget" "Apparel" :=
  resolver_deterministic demoCatalog "Widget" "Apparel" _ _ rfl rfl

/-- Claim C8: resolution never changes the catalogue: in state-passing form the
tables coming out equal the tables going in, whatever the outcome. -/
theorem resolver_preserves_catalog (cat : Catalog) (product_name industry : String) :
    (get_recommendation_st cat product_name industry).2 = cat :=
  rfl

/-- Claim C9: every successful resolution echoes the queried product and industry
verbatim in the result's Product and Industry fields. -/
theorem result_echoes_query (cat : Catalog) (product_name industry : String)
    (r : Recommendation)
    (h : get_recommendation cat product_name industry = .ok r) :
    r.product = product_name ∧ r.industry = industry := by
  unfold get_recommendation at h
  split at h
  · cases h
  · dsimp only at h
    split at h
    · cases h
    · cases h
      exact ⟨rfl, rfl⟩

theorem result_echoes_query_witness :
    (⟨"Widget", "Apparel", "Widget-A", "WA1", 50, "Net 30"⟩ :
        Recommendation).product = "Widget" ∧
    (⟨"Widget", "Apparel", "Widget-A", "WA1", 50, "Net 30"⟩ :
        Recommendation).industry = "Apparel" :=
  result_echoes_query demoCatalog "Widget" "Apparel" _ (by decide)

/-- Claim C10: a float in the selected MOQ cell does not make resolution fail: the
returned record carries the float truncated toward zero. -/
theorem float_moq_truncates (cat : Catalog) (product_name industry : String)
    (b : BaseRow) (bs : List BaseRow) (q : Rat)
    (hbase : baseLookup cat product_name = b :: bs)
    (hq : (industryOverride cat product_name industry
      (seedFields product_name b)).moq = .floatV q) :
    ∃ r, get_recommendation cat product_name industry = .ok r ∧
      r.moq = ratTrunc q := by
  unfold get_recommendation
  simp only [hbase, hq, intCoerce]
  exact ⟨_, rfl, rfl⟩

theorem float_moq_truncates_witness :
    (∃ r, get_recommendation floatMoqCatalog "Widget" "Apparel" = .ok r ∧
      r.moq = ratTrunc (mkRat 101 2)) ∧
    ratTrunc (mkRat 101 2) = 50 ∧ (mkRat 101 2 : Rat) ≠ (50 : Int) :=
  ⟨float_moq_truncates floatMoqCatalog "Widget" "Apparel"
     ⟨"Widget", "W1", .floatV (mkRat 101 2), "Net 15"⟩ [] (mkRat 101 2)
     (by decide) (by decide),
   by decide, by decide⟩

/-- Claim C6: for a non-empty industry label, the prompt handed to the
text-generation collaborator contains the product, the industry, the derived
recommended-product token (product, hyphen, uppercased industry initial),
the MOQ and the payment terms. -/
theorem prompt_contains_all_fields (product industry payment_terms : String)
    (moq : Int) (c : Char) (cs : List Char) (hc : industry.data = c :: cs) :
    ∃ p, get_deal_insights_prompt product industry moq payment_terms = some p ∧
      containsStr p product ∧
      containsStr p industry ∧
      containsStr p (derivedToken product c) ∧
      containsStr p (toString moq) ∧
      containsStr p payment_terms := by
  unfold get_deal_insights_prompt containsStr
  rw [hc]
  refine ⟨_, rfl, ?_, ?_, ?_, ?_, ?_⟩
  · exact ⟨promptSeg1.data,
      (promptSeg2 ++ industry ++ promptSeg3 ++ derivedToken product c ++
        promptSeg4 ++ toString moq ++ promptSeg5 ++ payment_terms ++
        promptTail).data,
      by simp [String.data_append, List.append_assoc, hc]⟩
  · exact ⟨(promptSeg1 ++ product ++ promptSeg2).data,
      (promptSeg3 ++ derivedToken product c ++ promptSeg4 ++ toString moq ++
        promptSeg5 ++ payment_terms ++ promptTail).data,
      by simp [String.data_append, List.append_assoc, hc]⟩
  · exact ⟨(promptSeg1 ++ product ++ promptSeg2 ++ industry ++ promptSeg3).data,
      (promptSeg4 ++ toString moq ++ promptSeg5 ++ payment_terms ++
        promptTail).data,
      by simp [String.data_append, List.append_assoc, hc]⟩
  · exact ⟨(promptSeg1 ++ product ++ promptSeg2 ++ industry ++ promptSeg3 ++
        derivedToken product c ++ promptSeg4).data,
      (promptSeg5 ++ payment_terms ++ promptTail).data,
      by simp [String.data_append, List.append_assoc, hc]⟩
  · exact ⟨(promptSeg1 ++ product ++ promptSeg2 ++ industry ++ promptSeg3 ++
        derivedToken product c ++ promptSeg4 ++ toString moq ++
        promptSeg5).data,
      promptTail.data,
      by simp [String.data_append, List.append_assoc, hc]⟩

theorem prompt_contains_all_fields_witness :
    ∃ p, get_deal_insights_prompt "Widget" "Apparel" 50 "Net 30" = some p ∧
      containsStr p "Widget" ∧
      containsStr p "Apparel" ∧
      containsStr p (derivedToken "Widget" 'A') ∧
      containsStr p (toString (50 : Int)) ∧
      containsStr p "Net 30" :=
  prompt_contains_all_fields "Widget" "Apparel" "Net 30" 50 'A'
    "pparel".data (by decide)
